import Mathlib

/-!
# Verification of the DeviceNet master-side protocol stack core

Shallow embedding of the address codec (`src/network/addressing.py`), the
byte/string codec (`src/convert.py`), the packet codec and fragmentation
engine (`src/devicenet/packets.py`) and the link/messaging layer
(`src/devicenet/link.py`), together with theorems settling the specification
claims about them.

Conventions of the embedding:
* Python integers are modelled as `Nat` (all values involved are
  non-negative byte/identifier quantities; the one place a difference of
  counters may be negative uses `Int` explicitly, as the source compares a
  plain Python difference).
* A Python function that can raise is modelled as an `Option`- or
  sum-returning function; `none` / the error constructor corresponds to the
  exception noted in the accompanying comment.
* CAN frames are pairs of an identifier and a byte list.
-/

/-! ## Address codec (`src/network/addressing.py`) -/

/-- Embedding of `can_addr(msg_group, msg_id, mac)`
(`src/network/addressing.py`, lines 8-62).  Generates a CAN identifier from
the DeviceNet message identifier fields; `none` models `DevNetGroupError`.
The guard chain mirrors the `if`/`elif` chain of the source line by line. -/
def can_addr (msg_group msg_id mac : Nat) : Option Nat :=
  -- if msg_group not in range(1, 5): raise DevNetGroupError
  if ¬(1 ≤ msg_group ∧ msg_group < 5) then none
  -- elif msg_group == 1 and msg_id not in range(0, 16): raise
  else if msg_group = 1 ∧ ¬(msg_id < 16) then none
  -- elif msg_group == 2 and msg_id not in range(0, 8): raise
  else if msg_group = 2 ∧ ¬(msg_id < 8) then none
  -- elif msg_group == 3 and msg_id not in range(0, 7): raise
  else if msg_group = 3 ∧ ¬(msg_id < 7) then none
  -- elif msg_id not in range(0, 64): raise
  else if ¬(msg_id < 64) then none
  -- elif mac not in range(0, 64): raise
  else if ¬(mac < 64) then none
  else if msg_group = 1 then some ((msg_id <<< 6) + mac)
  else if msg_group = 2 then some (0x400 + (mac <<< 3) + msg_id)
  else if msg_group = 3 then some (0x600 + (msg_id <<< 6) + mac)
  else if msg_group = 4 then some (0x7C0 + msg_id)
  else none  -- unreachable final `else: raise DevNetGroupError`

/-- Embedding of `devnet_addr(can_id)` (`src/network/addressing.py`,
lines 65-120).  Decodes a CAN identifier into `(msg_group, msg_id, mac)`.
The source initialises all three results to `0` and never raises, so the
embedding is a total function; identifiers matched by no group range keep
the initial `(0, 0, 0)`. -/
def devnet_addr (can_id : Nat) : Nat × Nat × Nat :=
  -- group_01 = [0, 0x400), group_02 = [0x400, 0x600),
  -- group_03 = [0x600, 0x7C0), group_04 = [0x7C0, 0x7F0)
  let group_id : Nat :=
    if can_id < 0x400 then 1
    else if 0x400 ≤ can_id ∧ can_id < 0x600 then 2
    else if 0x600 ≤ can_id ∧ can_id < 0x7C0 then 3
    else if 0x7C0 ≤ can_id ∧ can_id < 0x7F0 then 4
    else 0
  if group_id = 1 then (1, (can_id &&& 0x3C0) >>> 6, can_id &&& 0x03F)
  else if group_id = 2 then (2, can_id &&& 0x007, (can_id &&& 0x1F8) >>> 3)
  else if group_id = 3 then (3, (can_id &&& 0x1C0) >>> 6, can_id &&& 0x03F)
  else if group_id = 4 then (4, can_id &&& 0x03F, 0)
  else (0, 0, 0)

/-- Message-ID range the specification declares for each group
(`spec.md` §4.1: group 1 → [0,15], group 2 → [0,7], group 3 → [0,6],
group 4 → [0,47]).  Spec-side definition, used to quantify claims over
"messageID within the declared range of the group". -/
def spec_group_msg_range (msg_group : Nat) : Nat :=
  if msg_group = 1 then 16
  else if msg_group = 2 then 8
  else if msg_group = 3 then 7
  else if msg_group = 4 then 48
  else 0

/-! ## Byte/string codec (`src/convert.py`) -/

/-- A Unicode code point is valid for a Python string that can be UTF-8
encoded: below 0x110000 and not a surrogate (Python `str.encode` raises on
lone surrogates). -/
def ValidCodePoint (n : Nat) : Prop :=
  n < 0x110000 ∧ ¬(0xD800 ≤ n ∧ n ≤ 0xDFFF)

instance (n : Nat) : Decidable (ValidCodePoint n) := by
  unfold ValidCodePoint; infer_instance

/-- UTF-8 encoding of one code point, modelling the Python runtime codec
invoked by `bytearray(value, encoding=utf-8)` in `string_to_bytes`
(`src/convert.py`, line 92), per the UTF-8 standard. -/
def utf8EncodeChar (n : Nat) : List Nat :=
  if n < 0x80 then [n]
  else if n < 0x800 then [0xC0 + n / 64, 0x80 + n % 64]
  else if n < 0x10000 then
    [0xE0 + n / 4096, 0x80 + (n / 64) % 64, 0x80 + n % 64]
  else
    [0xF0 + n / 262144, 0x80 + (n / 4096) % 64, 0x80 + (n / 64) % 64,
     0x80 + n % 64]

/-- UTF-8 encoding of a string (list of code points). -/
def utf8Encode : List Nat → List Nat
  | [] => []
  | c :: rest => utf8EncodeChar c ++ utf8Encode rest

/-- One step of UTF-8 decoding: decode a single code point from the head of
the byte list and return it with the remaining bytes.  Models one iteration
of the Python runtime codec invoked by `bytearray(stream).decode(utf-8)` in
`bytes_to_string` (`src/convert.py`, line 123); `none` models
`UnicodeDecodeError` on a malformed lead or continuation byte. -/
def utf8Step : List Nat → Option (Nat × List Nat) := fun l =>
  match l with
  | [] => none
  | b0 :: tail =>
    if b0 < 0x80 then some (b0, tail)
    else if b0 < 0xC0 then none
    else if b0 < 0xE0 then
      match tail with
      | b1 :: t2 =>
        if 0x80 ≤ b1 ∧ b1 < 0xC0 then some ((b0 - 0xC0) * 64 + (b1 - 0x80), t2)
        else none
      | [] => none
    else if b0 < 0xF0 then
      match tail with
      | b1 :: b2 :: t3 =>
        if (0x80 ≤ b1 ∧ b1 < 0xC0) ∧ (0x80 ≤ b2 ∧ b2 < 0xC0) then
          some ((b0 - 0xE0) * 4096 + (b1 - 0x80) * 64 + (b2 - 0x80), t3)
        else none
      | _ => none
    else if b0 < 0xF8 then
      match tail with
      | b1 :: b2 :: b3 :: t4 =>
        if (0x80 ≤ b1 ∧ b1 < 0xC0) ∧ (0x80 ≤ b2 ∧ b2 < 0xC0) ∧
            (0x80 ≤ b3 ∧ b3 < 0xC0) then
          some ((b0 - 0xF0) * 262144 + (b1 - 0x80) * 4096 + (b2 - 0x80) * 64 +
            (b3 - 0x80), t4)
        else none
      | _ => none
    else none

/-- Iterate `utf8Step` until the byte list is exhausted.  The fuel argument
is a termination device only: every step consumes at least one byte, so fuel
equal to the length of the input never runs out. -/
def utf8DecodeLoop : Nat → List Nat → Option (List Nat)
  | _, [] => some []
  | 0, _ :: _ => none
  | fuel + 1, b0 :: tail =>
    match utf8Step (b0 :: tail) with
    | some (c, rest) => (utf8DecodeLoop fuel rest).map (fun l => c :: l)
    | none => none

/-- UTF-8 decoding of a byte list to a list of code points. -/
def utf8Decode (l : List Nat) : Option (List Nat) := utf8DecodeLoop l.length l

/-- Embedding of the `result.rstrip("\u0000")` step of `bytes_to_string`
(`src/convert.py`, line 124): strip trailing NUL code points. -/
def rstripNull (s : List Nat) : List Nat :=
  (s.reverse.dropWhile (fun c => c == 0)).reverse

/-- Embedding of `string_to_bytes(value)` (`src/convert.py`, lines 74-99):
UTF-8 encode, prepend the byte length, truncate to 255 entries. -/
def string_to_bytes (value : List Nat) : List Nat :=
  let stream := utf8Encode value
  let stream2 := stream.length :: stream
  if stream2.length > 255 then stream2.take 255 else stream2

/-- Embedding of `bytes_to_string(stream)` (`src/convert.py`,
lines 102-125): pop the length prefix (`none` models the `IndexError` of
`pop(0)` on an empty list), keep `length` bytes, UTF-8 decode, strip
trailing NULs. -/
def bytes_to_string (stream : List Nat) : Option (List Nat) :=
  match stream with
  | [] => none
  | length :: rest => (utf8Decode (rest.take length)).map rstripNull

/-! ## Protocol constants (`src/definitions.py`) -/

/-- `FRAGMENT.ENABLED` (`src/definitions.py`, line 319). -/
def FRAGMENT_ENABLED : Nat := 1
/-- `FRAGMENT.TYPE.START` (`src/definitions.py`, line 313). -/
def FRAGMENT_TYPE_START : Nat := 0x00
/-- `FRAGMENT.TYPE.MIDDLE` (`src/definitions.py`, line 314). -/
def FRAGMENT_TYPE_MIDDLE : Nat := 0x01
/-- `FRAGMENT.TYPE.FINAL` (`src/definitions.py`, line 315). -/
def FRAGMENT_TYPE_FINAL : Nat := 0x02
/-- `FRAGMENT.TYPE.ACK` (`src/definitions.py`, line 316). -/
def FRAGMENT_TYPE_ACK : Nat := 0x03
/-- `FRAGMENT.MAX_COUNT` (`src/definitions.py`, line 322). -/
def FRAGMENT_MAX_COUNT : Nat := 0x3F
/-- `SERVICE.ERROR` (`src/definitions.py`, line 220). -/
def SERVICE_ERROR : Nat := 0x14
/-- `SERVICE.LAST_VALID_CODE` (`src/definitions.py`, line 232). -/
def SERVICE_LAST_VALID_CODE : Nat := 0x7F
/-- `ERROR.INVALID_REPLY_RECEIVED` (`src/definitions.py`, line 561). -/
def ERROR_INVALID_REPLY_RECEIVED : Nat := 0x22

/-! ## Packet codec (`src/devicenet/packets.py`) -/

/-- A CAN frame at the driver boundary: 11-bit identifier and byte payload. -/
structure Frame where
  can_id : Nat
  data : List Nat
deriving DecidableEq, Repr

/-- Embedding of `DeviceNetPacket.build_can_header`
(`src/devicenet/packets.py`, lines 703-743).  Computes the derived fields
`(can_header, _mac_in_can_id)` from the packet addressing state.  For
group 2 the MAC embedded in the identifier is the source MAC when the
message ID is in `{BITSTROBE.REQ, EXPLICIT.RSP, UNCONNECTED.RSP}` — the
constants `0`, `3` and `3` (`src/definitions.py`, lines 69-72 and 132-157)
— and the destination MAC otherwise.  For group 4 and for unknown groups
the source leaves `_mac_in_can_id` at its initial value `0`
(`DeviceNetPacket.__init__`, line 326); the unknown-group arm is the
source final `else: pass`, which also leaves `can_header` at `0`. -/
def build_can_header (group_id message_id src_mac dst_mac : Nat) : Nat × Nat :=
  if group_id = 1 then
    (0x000 + (message_id <<< 6) + src_mac, src_mac)
  else if group_id = 2 then
    let mac_in_can_id := if message_id = 0 ∨ message_id = 3 then src_mac else dst_mac
    (0x400 + (mac_in_can_id <<< 3) + message_id, mac_in_can_id)
  else if group_id = 3 then
    (0x600 + (message_id <<< 6) + src_mac, src_mac)
  else if group_id = 4 then
    (0x7C0 + message_id, 0)
  else
    (0, 0)

/-- The constructor state of an `ExplicitFragPacket` / `IoFragPacket`
produced by the `split` loops (`src/devicenet/packets.py`, lines 1733-1763
and 2161-2193): addressing fields plus fragment header fields and the data
block.  The source serialises each such fragment with `to_frame()`; the
claims are about these packet fields. -/
structure FragPacket where
  group_id : Nat
  message_id : Nat
  src_mac : Nat
  dst_mac : Nat
  frag_count : Nat
  frag_type : Nat
  data : List Nat
deriving DecidableEq, Repr

/-- The state of a built packet entering `split`: the addressing fields
plus `can_data` (the serialised CAN payload, whose length is `self.length`)
and `data` (the message body for an `ExplicitServicePacket`, the raw I/O
data for an `IoPacket`). -/
structure SplitSrc where
  group_id : Nat
  message_id : Nat
  src_mac : Nat
  dst_mac : Nat
  can_data : List Nat
  data : List Nat
deriving DecidableEq, Repr

/-- One iteration of the `split` loop body (`src/devicenet/packets.py`,
lines 1725-1766 / 2153-2197) at index `i`: slice the block
`data[i*data_length : (i+1)*data_length]` and build a fragment whose type
is START for the first index, MIDDLE strictly between first and last, and
FINAL for the last; `none` models the unreachable final
`raise DevNetParsingError("Malformed packet")`. -/
def split_fragment_at (p : SplitSrc) (data_length last i : Nat) : Option FragPacket :=
  let block := (p.data.drop (i * data_length)).take data_length
  let mk : Nat → FragPacket := fun t =>
    { group_id := p.group_id, message_id := p.message_id, src_mac := p.src_mac,
      dst_mac := p.dst_mac, frag_count := i, frag_type := t, data := block }
  if i = 0 then some (mk FRAGMENT_TYPE_START)
  else if 0 < i ∧ i < last then some (mk FRAGMENT_TYPE_MIDDLE)
  else if i = last then some (mk FRAGMENT_TYPE_FINAL)
  else none

/-- The `for i in range(frag_count)` loop of `split`, collecting the built
fragments in order; fails if any index hits the unreachable error arm. -/
def split_loop (p : SplitSrc) (data_length last : Nat) : List Nat → Option (List FragPacket)
  | [] => some []
  | i :: rest =>
    match split_fragment_at p data_length last i, split_loop p data_length last rest with
    | some f, some l => some (f :: l)
    | _, _ => none

/-- Result of `split()`: either the list of fragments (each serialised with
`to_frame()` by the source), the unfragmented packet itself
(`fragments.append(self.to_frame())` in the `else` arm), or the
`DevNetParsingError` arm. -/
inductive SplitResult where
  | fragments (l : List FragPacket)
  | unfragmented
  | malformed
deriving DecidableEq, Repr

/-- The fragment count computed by `split`
(`src/devicenet/packets.py`, lines 1716-1720):
`len(self.data) // data_length`, incremented when the length is not
divisible. -/
def source_frag_count (data_length L : Nat) : Nat :=
  L / data_length + (if L % data_length ≠ 0 then 1 else 0)

/-- Common body of `ExplicitServicePacket.split`
(`src/devicenet/packets.py`, lines 1697-1773, `data_length = 6`) and
`IoPacket.split` (lines 2125-2204, `data_length = 7`); the two methods are
textually identical up to `data_length` and the fragment class.  The guard
is `self.length > 8` on the serialised CAN payload. -/
def split_core (data_length : Nat) (p : SplitSrc) : SplitResult :=
  if p.can_data.length > 8 then
    match split_loop p data_length (source_frag_count data_length p.data.length - 1)
        (List.range (source_frag_count data_length p.data.length)) with
    | some l => .fragments l
    | none => .malformed
  else .unfragmented

/-- Embedding of `ExplicitServicePacket.split` (`src/devicenet/packets.py`,
lines 1697-1773): at most 6 data bytes per explicit fragment. -/
def explicit_service_split (p : SplitSrc) : SplitResult := split_core 6 p

/-- Embedding of `IoPacket.split` (`src/devicenet/packets.py`,
lines 2125-2204): at most 7 data bytes per I/O fragment. -/
def io_packet_split (p : SplitSrc) : SplitResult := split_core 7 p

/-- Closed form of the fragment built at index `i` by the `split` loop:
START at the first index, MIDDLE strictly before the last, FINAL at the
last; the data block is `data[i*data_length : (i+1)*data_length]`.
Helper for stating and proving what `split_fragment_at` returns on every
in-range index. -/
def split_frag_shape (p : SplitSrc) (data_length last i : Nat) : FragPacket :=
  { group_id := p.group_id, message_id := p.message_id, src_mac := p.src_mac,
    dst_mac := p.dst_mac, frag_count := i,
    frag_type :=
      if i = 0 then FRAGMENT_TYPE_START
      else if i < last then FRAGMENT_TYPE_MIDDLE
      else FRAGMENT_TYPE_FINAL,
    data := (p.data.drop (i * data_length)).take data_length }

/-- The properties claim C2 asserts of a fragment list produced from
payload `d` with block size `data_length`: the blocks partition `d` (their
concatenation restores it), and the fragment at position `i` carries
`fragCount = i`, at most `data_length` data bytes, and fragType START at
the first position, FINAL at the last, MIDDLE in between. -/
def SplitClaim (data_length : Nat) (d : List Nat) (l : List FragPacket) : Prop :=
  (l.map (fun fr => fr.data)).flatten = d ∧
  (∀ i, (h : i < l.length) →
    (l.get ⟨i, h⟩).frag_count = i ∧
    (l.get ⟨i, h⟩).data.length ≤ data_length ∧
    (l.get ⟨i, h⟩).frag_type =
      (if i = 0 then FRAGMENT_TYPE_START
       else if i = l.length - 1 then FRAGMENT_TYPE_FINAL
       else FRAGMENT_TYPE_MIDDLE))

/-- The fields of an `ExplicitServicePacket` populated by
`ExplicitServicePacket.from_frame` (`src/devicenet/packets.py`,
lines 1618-1637), keeping those the link layer reads.  `mac_in_can_id`
comes from `devnet_addr`; byte 0 yields `frag_flag`, `xid` and
`mac_in_message` (`parse_message_header`, lines 1148-1169); the fragment
header, when `frag_flag` is set, is byte 1 (`get_frag_header`,
lines 1639-1665); the service header and service data come from
`parse_message_body` (lines 1545-1585) at offset 2 for fragmented frames
and offset 1 otherwise. -/
structure ServicePacket where
  group_id : Nat
  message_id : Nat
  mac_in_can_id : Nat
  frag_flag : Nat
  xid : Nat
  mac_in_message : Nat
  frag_type : Nat
  frag_count : Nat
  rr_flag : Nat
  service_code : Nat
  service_data : List Nat
deriving DecidableEq, Repr

/-- Embedding of `ExplicitServicePacket().from_frame(frame)`
(`src/devicenet/packets.py`, lines 1618-1637); `none` models the
`DevNetParsingError` raised on any parsing failure.  The failure
conditions reproduce the source call sequence:

* `DeviceNetPacket.from_frame` runs `parse()` whose `get_src_mac` /
  `get_dst_mac` (lines 492-531) raise unless the decoded group is 1, 3
  or 2;
* `parse_message_header` (offset 0) needs byte 0 and `parse_message_body`
  at offset 1 — invoked from `ExplicitPacket.from_frame`, line 1223 —
  needs byte 1, and for a request shape (bit 7 of byte 1 clear) also the
  class and instance ID bytes 2 and 3;
* for a fragmented frame, `parse_message_body` runs again at offset 2
  (line 1630) and needs byte 2, and for a request shape at that offset
  the class and instance ID bytes 3 and 4.

The fields record the final assignments: for a fragmented frame the
service header is byte 2 and the service data is `data[5:8]` (request) or
`data[3:8]` (response); otherwise the service header is byte 1 and the
service data is `data[4:8]` (request) or `data[2:8]` (response).  An
unfragmented parse leaves `frag_type`/`frag_count` at the constructor
defaults `FRAGMENT.TYPE.START` and `0` (lines 1333-1334). -/
def parse_explicit_service (f : Frame) : Option ServicePacket :=
  let g := (devnet_addr f.can_id).1
  let m := (devnet_addr f.can_id).2.1
  let macc := (devnet_addr f.can_id).2.2
  if ¬(g = 1 ∨ g = 3 ∨ g = 2) then none
  else
    match f.data with
    | b0 :: b1 :: rest2 =>
      let frag_flag := (b0 &&& 0x80) >>> 7
      let xid := (b0 &&& 0x40) >>> 6
      let mac_msg := b0 &&& 0x3F
      let rr1 := (b1 &&& 0x80) >>> 7
      if rr1 = 0 ∧ f.data.length < 4 then none
      else if frag_flag = 1 then
        match rest2 with
        | b2 :: _ =>
          let rr := (b2 &&& 0x80) >>> 7
          if rr = 0 ∧ f.data.length < 5 then none
          else some
            { group_id := g, message_id := m, mac_in_can_id := macc,
              frag_flag := frag_flag, xid := xid, mac_in_message := mac_msg,
              frag_type := (b1 &&& 0xC0) >>> 6, frag_count := b1 &&& 0x3F,
              rr_flag := rr, service_code := b2 &&& 0x7F,
              service_data :=
                if rr = 0 then (f.data.drop 5).take 3 else (f.data.drop 3).take 5 }
        | [] => none
      else
        some
          { group_id := g, message_id := m, mac_in_can_id := macc,
            frag_flag := frag_flag, xid := xid, mac_in_message := mac_msg,
            frag_type := FRAGMENT_TYPE_START, frag_count := 0,
            rr_flag := rr1, service_code := b1 &&& 0x7F,
            service_data :=
              if rr1 = 0 then (f.data.drop 4).take 4 else (f.data.drop 2).take 6 }
    | _ => none

/-- The fields of an `ExplicitFragPacket` populated by
`ExplicitFragPacket.from_frame` (`src/devicenet/packets.py`,
lines 1888-1899).  That method runs `parse_can_header`, `parse_can_data`,
`parse_message_header`, `get_frag_header` and `parse_message_body`
(offset 2); it never assigns `src_mac`/`dst_mac`, which keep their
constructor defaults. -/
structure ParsedFrag where
  group_id : Nat
  message_id : Nat
  mac_in_can_id : Nat
  frag_flag : Nat
  xid : Nat
  mac_in_message : Nat
  frag_type : Nat
  frag_count : Nat
  data : List Nat
deriving DecidableEq, Repr

/-- Embedding of `ExplicitFragPacket().from_frame(frame)`
(`src/devicenet/packets.py`, lines 1888-1899); `none` models the
`DevNetParsingError` when byte 0 (`parse_message_header`) or byte 1
(`get_frag_header`, lines 1847-1860) is missing.  The fragment data block
is `data[2:8]` via `parse_message_body` (`ExplicitPacket`, line 1177). -/
def parse_explicit_frag (f : Frame) : Option ParsedFrag :=
  match f.data with
  | b0 :: b1 :: _ =>
    some
      { group_id := (devnet_addr f.can_id).1,
        message_id := (devnet_addr f.can_id).2.1,
        mac_in_can_id := (devnet_addr f.can_id).2.2,
        frag_flag := (b0 &&& 0x80) >>> 7, xid := (b0 &&& 0x40) >>> 6,
        mac_in_message := b0 &&& 0x3F,
        frag_type := (b1 &&& 0xC0) >>> 6, frag_count := b1 &&& 0x3F,
        data := (f.data.drop 2).take 6 }
  | _ => none

/-- The fields of an `IoFragPacket` populated by
`IoFragPacket.from_frame` (`src/devicenet/packets.py`, lines 2281-2300),
which runs `parse()` (lines 2417-2426): group, message and CAN-ID MAC via
`devnet_addr`, then `get_src_mac`/`get_dst_mac`, then the fragment header
from byte 0 (`get_frag_header`, lines 2304-2330) and the data from
`data[1:]` (`get_app_data`, line 2381).  `get_dst_mac` (lines 516-531) for
a group-2 bit-strobe/explicit-response message overwrites `src_mac` with
`_mac_in_message`, which parsing never assigns and which is therefore `0`;
the same default applies wherever the source reads `_mac_in_message`. -/
structure ParsedIoFrag where
  group_id : Nat
  message_id : Nat
  mac_in_can_id : Nat
  src_mac : Nat
  dst_mac : Nat
  frag_type : Nat
  frag_count : Nat
  data : List Nat
deriving DecidableEq, Repr

/-- Embedding of `IoFragPacket().from_frame(frame)`
(`src/devicenet/packets.py`, lines 2281-2300); `none` models the
`DevNetPacketError` of `get_src_mac` on a group outside {1, 3, 2} and the
`DevNetParsingError` of `get_frag_header` on an empty payload. -/
def parse_io_frag (f : Frame) : Option ParsedIoFrag :=
  let g := (devnet_addr f.can_id).1
  let m := (devnet_addr f.can_id).2.1
  let macc := (devnet_addr f.can_id).2.2
  if ¬(g = 1 ∨ g = 3 ∨ g = 2) then none
  else
    match f.data with
    | b0 :: rest =>
      some
        { group_id := g, message_id := m, mac_in_can_id := macc,
          src_mac :=
            if g = 1 ∨ g = 3 then macc
            else if m = 0 ∨ m = 3 then 0 else 0,
          dst_mac :=
            if g = 1 ∨ g = 3 then 0
            else if ¬(m = 0 ∨ m = 3) then macc else 0,
          frag_type := (b0 &&& 0xC0) >>> 6, frag_count := b0 &&& 0x3F,
          data := rest }
    | [] => none

/-- The fields of an `ExplicitFragAckPacket` the link layer reads after
`from_frame` (`src/devicenet/packets.py`, lines 2008-2017).  Parsing never
assigns `ack_status` (no getter for it is called anywhere in the
`from_frame` chain), so the attribute keeps the constructor default `0`
(line 1982). -/
structure FragAckPacket where
  frag_type : Nat
  ack_status : Nat
deriving DecidableEq, Repr

/-- Embedding of `ExplicitFragAckPacket().from_frame(frame)`
(`src/devicenet/packets.py`, lines 2008-2017): `ExplicitFragPacket`
parsing followed by `validate()` (lines 2021-2033).  The two ack-status
arms of `validate` test the unassigned attribute, still `0`, and thus
never fire; they are kept verbatim. -/
def parse_frag_ack (f : Frame) : Option FragAckPacket :=
  match parse_explicit_frag f with
  | none => none
  | some r =>
    let p : FragAckPacket := { frag_type := r.frag_type, ack_status := 0 }
    if p.frag_type ≠ FRAGMENT_TYPE_ACK then none
    else if p.ack_status = 0x01 then none
    else if 0x02 ≤ p.ack_status ∧ p.ack_status ≤ 0xFF then none
    else some p

/-! ## Link layer (`src/devicenet/link.py`)

The CAN interface is modelled by the list of successive `recv` results:
`some frame` for a frame arriving within the timeout, `none` for a timeout
(an exhausted list also reads as timeouts).  Acknowledge frames emitted via
`ack_fragment` (lines 354-380) are recorded as the list of fragment counts
sent, threaded through as an accumulator. -/

/-- Embedding of `_final_fragment(response)` (`src/devicenet/link.py`,
lines 766-771). -/
def final_fragment (frag_type frag_count : Nat) : Bool :=
  frag_type == FRAGMENT_TYPE_FINAL || frag_count == FRAGMENT_MAX_COUNT

/-- One iteration of the branch ladder of `read_fragment`
(`src/devicenet/link.py`, lines 299-317) on a parsed fragment with counter
`frag_count` and payload `fdata`: returns the updated
`(prev_counter, stream, acks)`.  `counter_diff` is a plain Python integer
difference, hence computed in `Int`.  A difference above 1 only logs a
warning; a negative difference matches no branch. -/
def read_fragment_step (explicit : Bool) (frag_count : Nat) (fdata : List Nat)
    (prev : Nat) (stream acks : List Nat) : Nat × List Nat × List Nat :=
  let counter_diff : Int := (frag_count : Int) - (prev : Int)
  if counter_diff = 0 then
    if explicit then (prev, stream, acks ++ [frag_count])
    else (prev, stream ++ fdata, acks)
  else if counter_diff = 1 then
    (frag_count, stream ++ fdata, if explicit then acks ++ [frag_count] else acks)
  else
    (prev, stream, acks)

/-- Outcome of `read_fragment`: the returned value (`stream if stream else
None`, line 323) with the acks sent, or a propagated parsing exception. -/
inductive ReadFragOut where
  | ok (result : Option (List Nat)) (acks : List Nat)
  | parseError (acks : List Nat)
deriving DecidableEq, Repr

/-- Embedding of the `while True` loop of `read_fragment`
(`src/devicenet/link.py`, lines 269-324), explicit when `explicit = true`
(parse as `ExplicitFragPacket`, acknowledge per branch) and I/O otherwise
(parse as `IoFragPacket`, never acknowledge).  A `recv` timeout breaks the
loop; after the branch ladder the loop exits when `_final_fragment`
holds. -/
def read_fragment_loop (explicit : Bool) :
    List (Option Frame) → Nat → List Nat → List Nat → ReadFragOut
  | [], _, stream, acks => .ok (if stream.isEmpty then none else some stream) acks
  | none :: _, _, stream, acks => .ok (if stream.isEmpty then none else some stream) acks
  | some f :: rest, prev, stream, acks =>
    let parsed : Option (Nat × Nat × List Nat) :=
      if explicit then
        (parse_explicit_frag f).map (fun r => (r.frag_type, r.frag_count, r.data))
      else
        (parse_io_frag f).map (fun r => (r.frag_type, r.frag_count, r.data))
    match parsed with
    | none => .parseError acks
    | some (ftype, fcount, fdata) =>
      let st := read_fragment_step explicit fcount fdata prev stream acks
      if final_fragment ftype fcount then
        .ok (if st.2.1.isEmpty then none else some st.2.1) st.2.2
      else read_fragment_loop explicit rest st.1 st.2.1 st.2.2

/-- Embedding of `read_fragment(interface, ...)` from its entry state
(`stream = []`, `prev_counter = 0`, lines 281-282). -/
def read_fragment (explicit : Bool) (msgs : List (Option Frame)) : ReadFragOut :=
  read_fragment_loop explicit msgs 0 [] []

/-- Outcome of `wait_response`: the returned service data with the acks
sent, or the raised exception (`CipNoResponseError`, `CipServiceError`
with its code, a propagated `DevNetParsingError`, or the Python
`TypeError`/`IndexError` of `result.extend(None)` / `service_data[0]` on
an empty list). -/
inductive WaitOut where
  | ok (result : List Nat) (acks : List Nat)
  | noResponse (acks : List Nat)
  | serviceError (code : Nat) (acks : List Nat)
  | parseError (acks : List Nat)
  | runtimeError (acks : List Nat)
deriving DecidableEq, Repr

/-- Embedding of the `while True` receive loop of `wait_response`
(`src/devicenet/link.py`, lines 220-264).  Each received frame is parsed
as an `ExplicitServicePacket`; a matching service code is consumed as a
whole message, a one-fragment message (`_one_fragment`, lines 742-747), or
a start fragment (acknowledge count 0, then reassemble via
`read_fragment`); any other fragment loops.  A non-matching frame raises
`CipServiceError(INVALID_REPLY_RECEIVED)` when the requested code exceeds
`SERVICE.LAST_VALID_CODE` and the response is not an error, or
`CipServiceError(service_data[0])` when the response service code is
`SERVICE.ERROR`; otherwise the loop continues. -/
def wait_response (service_code : Nat) :
    List (Option Frame) → List Nat → WaitOut
  | [], acks => .noResponse acks
  | none :: _, acks => .noResponse acks
  | some f :: rest, acks =>
    match parse_explicit_service f with
    | none => .parseError acks
    | some r =>
      if r.service_code = service_code then
        if ¬(r.frag_flag = FRAGMENT_ENABLED) then .ok r.service_data acks
        else if r.frag_type = FRAGMENT_TYPE_START ∧ r.frag_count = FRAGMENT_MAX_COUNT then
          .ok r.service_data acks
        else if r.frag_type = FRAGMENT_TYPE_START ∧ r.frag_count = 0 then
          match read_fragment_loop true rest 0 [] (acks ++ [0x00]) with
          | .ok (some str) acks2 => .ok (r.service_data ++ str) acks2
          | .ok none acks2 => .runtimeError acks2
          | .parseError acks2 => .parseError acks2
        else wait_response service_code rest acks
      else if service_code > SERVICE_LAST_VALID_CODE ∧ ¬(r.service_code = SERVICE_ERROR) then
        .serviceError ERROR_INVALID_REPLY_RECEIVED acks
      else if r.service_code = SERVICE_ERROR then
        match r.service_data with
        | e :: _ => .serviceError e acks
        | [] => .runtimeError acks
      else wait_response service_code rest acks

/-- Outcome of `wait_fragment_ack`. -/
inductive FragAckOut where
  | ok
  | fragmentResponseError
  | noResponse
  | parseError
deriving DecidableEq, Repr

/-- The body run by `wait_fragment_ack` on a received frame
(`src/devicenet/link.py`, lines 340-344): parse as
`ExplicitFragAckPacket`, raise `CipFragmentResponseError` on a non-zero
`ack_status`, else accept. -/
def wait_fragment_ack_check (f : Frame) : FragAckOut :=
  match parse_frag_ack f with
  | none => .parseError
  | some p => if p.ack_status ≠ 0 then .fragmentResponseError else .ok

/-- Embedding of `wait_fragment_ack(interface)` (`src/devicenet/link.py`,
lines 329-349): up to two `recv` attempts; the first received frame is
checked; if neither attempt yields a frame, raise `CipNoResponseError`. -/
def wait_fragment_ack (r1 r2 : Option Frame) : FragAckOut :=
  match r1 with
  | some f => wait_fragment_ack_check f
  | none =>
    match r2 with
    | some f => wait_fragment_ack_check f
    | none => .noResponse

/-! ## Claim C1 — address round-trip -/

/-- Claim C1, as stated, is false at the concrete valid triple
`(group, messageID, mac) = (4, 0, 1)` (group 4, messageID within the
declared range [0, 47], mac within [0, 63]): the encoder produces `0x7C0`,
but a group-4 identifier does not encode the MAC, so decoding returns
`(4, 0, 0)`, not `(4, 0, 1)`. -/
theorem C1_addr_roundtrip_counterexample :
    can_addr 4 0 1 = some 0x7C0 ∧ devnet_addr 0x7C0 ≠ (4, 0, 1) := by
  decide

/-- Claim C1 (amended): for groups 1-3, decoding the encoded identifier
returns the original triple for every messageID in the declared range
(`spec_group_msg_range`) and every mac in [0, 63]; for group 4 the
identifier does not encode the MAC, so decoding returns `(4, messageID, 0)`
and the round-trip holds exactly when mac = 0. -/
theorem C1_addr_roundtrip_amended :
    (∀ m, m < spec_group_msg_range 1 → ∀ a, a < 64 →
      (can_addr 1 m a).map devnet_addr = some (1, m, a)) ∧
    (∀ m, m < spec_group_msg_range 2 → ∀ a, a < 64 →
      (can_addr 2 m a).map devnet_addr = some (2, m, a)) ∧
    (∀ m, m < spec_group_msg_range 3 → ∀ a, a < 64 →
      (can_addr 3 m a).map devnet_addr = some (3, m, a)) ∧
    (∀ m, m < spec_group_msg_range 4 → ∀ a, a < 64 →
      (can_addr 4 m a).map devnet_addr = some (4, m, 0)) := by
  refine ⟨?_, ?_, ?_, ?_⟩ <;> decide

/-- Witness: the amended round-trip applied at the concrete triples
`(2, 4, 1)` and `(4, 5, 7)`. -/
theorem C1_addr_roundtrip_amended_witness :
    (can_addr 2 4 1).map devnet_addr = some (2, 4, 1) ∧
    (can_addr 4 5 7).map devnet_addr = some (4, 5, 0) :=
  ⟨C1_addr_roundtrip_amended.2.1 4 (by decide) 1 (by decide),
   C1_addr_roundtrip_amended.2.2.2 5 (by decide) 7 (by decide)⟩

/-! ## Claim C8 — group-4 bounds of `can_addr` -/

/-- Claim C8: the positive half holds — group 4 with messageID in [0, 47]
produces `0x7C0 | messageID` — but the bounds check is wrong: the source
only tests group-4 messageIDs against `range(0, 64)`
(`src/network/addressing.py`, line 40), so `can_addr(4, 48, 0)` returns
`0x7F0` instead of raising `GroupError`.  `0x7F0` lies in the range that
`devnet_addr` in the same module (and `CAN_ID.INVALID` in
`src/definitions.py`, lines 36-39) treats as reserved/invalid: decoding it
yields the sentinel `(0, 0, 0)`. -/
theorem C8_can_addr_group4 :
    (∀ m, m < 48 → ∀ a, a < 64 → can_addr 4 m a = some (0x7C0 ||| m)) ∧
    can_addr 4 48 0 = some 0x7F0 ∧
    devnet_addr 0x7F0 = (0, 0, 0) := by
  refine ⟨?_, by decide, by decide⟩
  decide

/-- Witness: the group-4 encoding equation applied at `(4, 5, 0)`. -/
theorem C8_can_addr_group4_witness : can_addr 4 5 0 = some (0x7C0 ||| 5) :=
  C8_can_addr_group4.1 5 (by decide) 0 (by decide)

/-! ## Claim C10 — totality of `devnet_addr` -/

/-- Claim C10: `devnet_addr` is total on the 11-bit identifier space — it
always returns a `(group, messageID, mac)` triple (the Lean embedding is a
total function because the source initialises the results and has no
`raise`) — and on the reserved range [0x7F0, 0x7FF] it returns the
sentinel `(0, 0, 0)` rather than signalling invalidity. -/
theorem C10_devnet_addr_total :
    ∀ i, i ≤ 0x7FF →
      (∃ g m a, devnet_addr i = (g, m, a)) ∧
      (0x7F0 ≤ i → devnet_addr i = (0, 0, 0)) := by
  intro i _
  refine ⟨⟨_, _, _, rfl⟩, fun hr => ?_⟩
  unfold devnet_addr
  have h1 : ¬ i < 0x400 := by omega
  have h2 : ¬ (0x400 ≤ i ∧ i < 0x600) := by omega
  have h3 : ¬ (0x600 ≤ i ∧ i < 0x7C0) := by omega
  have h4 : ¬ (0x7C0 ≤ i ∧ i < 0x7F0) := by omega
  simp [h1, h2, h3, h4]

/-- Witness: totality and the sentinel value at the reserved identifier
`0x7F5`. -/
theorem C10_devnet_addr_total_witness :
    (∃ g m a, devnet_addr 0x7F5 = (g, m, a)) ∧
    (0x7F0 ≤ 0x7F5 → devnet_addr 0x7F5 = (0, 0, 0)) :=
  C10_devnet_addr_total 0x7F5 (by decide)

/-! ## Helper lemmas for the string codec -/

theorem utf8Step_encodeChar (c : Nat) (r : List Nat) (hc : c < 0x110000) :
    utf8Step (utf8EncodeChar c ++ r) = some (c, r) := by
  unfold utf8EncodeChar
  split_ifs with h1 h2 h3
  · unfold utf8Step
    simp only [List.cons_append, List.nil_append]
    rw [if_pos h1]
  · unfold utf8Step
    simp only [List.cons_append, List.nil_append]
    rw [if_neg (by omega), if_neg (by omega), if_pos (show 0xC0 + c / 64 < 0xE0 by omega),
      if_pos (by omega)]
    have : (0xC0 + c / 64 - 0xC0) * 64 + (0x80 + c % 64 - 0x80) = c := by omega
    rw [this]
  · unfold utf8Step
    simp only [List.cons_append, List.nil_append]
    rw [if_neg (by omega), if_neg (by omega), if_neg (by omega),
      if_pos (show 0xE0 + c / 4096 < 0xF0 by omega), if_pos (by omega)]
    have : (0xE0 + c / 4096 - 0xE0) * 4096 + (0x80 + c / 64 % 64 - 0x80) * 64 +
        (0x80 + c % 64 - 0x80) = c := by omega
    rw [this]
  · unfold utf8Step
    simp only [List.cons_append, List.nil_append]
    rw [if_neg (by omega), if_neg (by omega), if_neg (by omega), if_neg (by omega),
      if_pos (show 0xF0 + c / 262144 < 0xF8 by omega), if_pos (by omega)]
    have : (0xF0 + c / 262144 - 0xF0) * 262144 + (0x80 + c / 4096 % 64 - 0x80) * 4096 +
        (0x80 + c / 64 % 64 - 0x80) * 64 + (0x80 + c % 64 - 0x80) = c := by omega
    rw [this]

theorem utf8EncodeChar_ne_nil (c : Nat) : utf8EncodeChar c ≠ [] := by
  unfold utf8EncodeChar
  split_ifs <;> simp

theorem utf8DecodeLoop_encode (s : List Nat) (fuel : Nat)
    (h : ∀ c ∈ s, c < 0x110000) (hf : (utf8Encode s).length ≤ fuel) :
    utf8DecodeLoop fuel (utf8Encode s) = some s := by
  induction s generalizing fuel with
  | nil => cases fuel <;> rfl
  | cons c rest ih =>
    have hc : c < 0x110000 := h c (by simp)
    rw [utf8Encode]
    obtain ⟨b0, bs, hb⟩ : ∃ b0 bs, utf8EncodeChar c = b0 :: bs := by
      cases hx : utf8EncodeChar c with
      | nil => exact absurd hx (utf8EncodeChar_ne_nil c)
      | cons a l => exact ⟨a, l, rfl⟩
    have hfuel : ∃ f, fuel = f + 1 := by
      refine ⟨fuel - 1, ?_⟩
      rw [utf8Encode] at hf
      simp [List.length_append, hb] at hf
      omega
    obtain ⟨f, rfl⟩ := hfuel
    rw [hb, List.cons_append, utf8DecodeLoop]
    rw [← List.cons_append, ← hb, utf8Step_encodeChar c _ hc]
    dsimp only
    have hf2 : (utf8Encode rest).length ≤ f := by
      rw [utf8Encode, List.length_append, hb] at hf
      simp at hf
      omega
    rw [ih f (fun x hx => h x (by simp [hx])) hf2]
    rfl

theorem utf8Decode_utf8Encode (s : List Nat) (h : ∀ c ∈ s, c < 0x110000) :
    utf8Decode (utf8Encode s) = some s :=
  utf8DecodeLoop_encode s _ h le_rfl

/-! ## Claim C9 — string codec -/

theorem string_to_bytes_no_trunc (s : List Nat) (h : (utf8Encode s).length ≤ 254) :
    string_to_bytes s = (utf8Encode s).length :: utf8Encode s := by
  unfold string_to_bytes
  rw [if_neg (show ¬ ((utf8Encode s).length :: utf8Encode s).length > 255 by
    simp only [List.length_cons]
    omega)]

/-- Claim C9: encoding `"Test"` (code points `[84, 101, 115, 116]`) yields
`[4, 84, 101, 115, 116]`; for every encodable string whose UTF-8 encoding
fits in 254 bytes, decoding the encoding returns the string with trailing
NULs stripped; and for every string whose UTF-8 encoding exceeds 254
bytes, the encoded output is truncated to 255 entries including the length
prefix. -/
theorem C9_string_codec :
    string_to_bytes [84, 101, 115, 116] = [4, 84, 101, 115, 116] ∧
    (∀ s, (∀ c ∈ s, ValidCodePoint c) → (utf8Encode s).length ≤ 254 →
      bytes_to_string (string_to_bytes s) = some (rstripNull s)) ∧
    (∀ s, 254 < (utf8Encode s).length → (string_to_bytes s).length = 255) := by
  refine ⟨by decide, fun s hv hlen => ?_, fun s hlen => ?_⟩
  · rw [string_to_bytes_no_trunc s hlen]
    unfold bytes_to_string
    dsimp only
    rw [List.take_length, utf8Decode_utf8Encode s (fun c hc => (hv c hc).1)]
    rfl
  · unfold string_to_bytes
    rw [if_pos (show ((utf8Encode s).length :: utf8Encode s).length > 255 by
      simp only [List.length_cons]
      omega)]
    simp only [List.length_take, List.length_cons]
    omega

set_option maxRecDepth 4000 in
/-- Witness: the codec round-trip applied at the concrete string
`[84, 0, 0]` (NUL-terminated), and the truncation applied at a string of
255 ASCII characters. -/
theorem C9_string_codec_witness :
    bytes_to_string (string_to_bytes [84, 0, 0]) = some (rstripNull [84, 0, 0]) ∧
    (string_to_bytes (List.replicate 255 65)).length = 255 :=
  ⟨C9_string_codec.2.1 [84, 0, 0] (by decide) (by decide),
   C9_string_codec.2.2 (List.replicate 255 65) (by decide)⟩

/-! ## Claim C2 — fragment split -/

theorem split_fragment_at_eq_shape (p : SplitSrc) (dl last i : Nat) (h : i ≤ last) :
    split_fragment_at p dl last i = some (split_frag_shape p dl last i) := by
  unfold split_fragment_at split_frag_shape
  split_ifs <;> first | rfl | omega

theorem split_loop_eq_map (p : SplitSrc) (dl last : Nat) :
    ∀ is : List Nat, (∀ i ∈ is, i ≤ last) →
      split_loop p dl last is = some (is.map (split_frag_shape p dl last)) := by
  intro is h
  induction is with
  | nil => rfl
  | cons i rest ih =>
    rw [split_loop, split_fragment_at_eq_shape p dl last i (h i (by simp)),
      ih (fun x hx => h x (by simp [hx]))]
    rfl

theorem split_core_fragments (dl : Nat) (p : SplitSrc) (h8 : 8 < p.can_data.length)
    (hn : 1 ≤ source_frag_count dl p.data.length) :
    split_core dl p = .fragments
      ((List.range (source_frag_count dl p.data.length)).map
        (split_frag_shape p dl (source_frag_count dl p.data.length - 1))) := by
  unfold split_core
  rw [if_pos h8, split_loop_eq_map p dl _ _ (fun i hi => by
    rw [List.mem_range] at hi
    omega)]

theorem join_take_drop (k : Nat) :
    ∀ (c : Nat) (d : List Nat), d.length ≤ c * k →
      ((List.range c).map (fun i => (d.drop (i * k)).take k)).flatten = d := by
  intro c
  induction c with
  | zero =>
    intro d hd
    simp only [Nat.zero_mul, Nat.le_zero] at hd
    have : d = [] := List.eq_nil_of_length_eq_zero hd
    simp [this]
  | succ c ih =>
    intro d hd
    rw [List.range_succ_eq_map]
    simp only [List.map_cons, List.map_map, List.flatten_cons, Nat.zero_mul, List.drop_zero]
    have hmap : (List.range c).map ((fun i => (d.drop (i * k)).take k) ∘ Nat.succ) =
        (List.range c).map (fun i => ((d.drop k).drop (i * k)).take k) := by
      refine List.map_congr_left (fun i _ => ?_)
      simp only [Function.comp]
      rw [List.drop_drop]
      have : i.succ * k = k + i * k := by
        rw [Nat.succ_mul]
        omega
      rw [this]
    rw [hmap, ih (d.drop k) (by
      rw [List.length_drop]
      rw [Nat.succ_mul] at hd
      omega)]
    exact List.take_append_drop k d

/-- Claim C2: for an explicit service packet whose serialised CAN payload
(`can_data`, one message-header byte followed by the message body `data` —
`ExplicitServicePacket.build`, `src/devicenet/packets.py`,
lines 1680-1693) exceeds 8 bytes, `split()` produces exactly
`ceil(len(data) / 6)` fragments satisfying `SplitClaim`: blocks of at most
6 bytes partitioning the payload, fragCount increasing from 0, fragType
START / MIDDLE / FINAL; and likewise for an I/O packet (whose built
`can_data` equals its `data`, `IoPacket.build`, lines 2208-2219) with
blocks of at most 7 bytes and `ceil(len(data) / 7)` fragments. -/
theorem C2_split_fragments (p : SplitSrc) :
    (p.can_data.length = p.data.length + 1 → 8 < p.can_data.length →
      ∃ l, explicit_service_split p = .fragments l ∧
        l.length = (p.data.length + 5) / 6 ∧ SplitClaim 6 p.data l) ∧
    (p.can_data = p.data → 8 < p.can_data.length →
      ∃ l, io_packet_split p = .fragments l ∧
        l.length = (p.data.length + 6) / 7 ∧ SplitClaim 7 p.data l) := by
  constructor
  · intro hrel h8
    have hL : 8 ≤ p.data.length := by omega
    have hn : 1 ≤ source_frag_count 6 p.data.length := by
      unfold source_frag_count
      split_ifs <;> omega
    refine ⟨_, split_core_fragments 6 p h8 hn, ?_, ?_, ?_⟩
    · unfold source_frag_count
      simp only [List.length_map, List.length_range]
      split_ifs <;> omega
    · rw [List.map_map]
      have : (fun fr => FragPacket.data fr) ∘ split_frag_shape p 6 (source_frag_count 6 p.data.length - 1) =
          fun i => (p.data.drop (i * 6)).take 6 := by
        funext i
        rfl
      rw [this]
      refine join_take_drop 6 _ _ ?_
      unfold source_frag_count
      split_ifs <;> omega
    · intro i h
      simp only [List.length_map, List.length_range] at h
      simp only [List.get_eq_getElem, List.getElem_map, List.getElem_range]
      refine ⟨rfl, by simp [split_frag_shape], ?_⟩
      show (split_frag_shape p 6 (source_frag_count 6 p.data.length - 1) i).frag_type = _
      unfold split_frag_shape
      simp only [List.length_map, List.length_range]
      split_ifs <;> first | rfl | omega
  · intro hrel h8
    have hL : 9 ≤ p.data.length := by
      rw [← hrel]
      omega
    have hn : 1 ≤ source_frag_count 7 p.data.length := by
      unfold source_frag_count
      split_ifs <;> omega
    refine ⟨_, split_core_fragments 7 p h8 hn, ?_, ?_, ?_⟩
    · unfold source_frag_count
      simp only [List.length_map, List.length_range]
      split_ifs <;> omega
    · rw [List.map_map]
      have : (fun fr => FragPacket.data fr) ∘ split_frag_shape p 7 (source_frag_count 7 p.data.length - 1) =
          fun i => (p.data.drop (i * 7)).take 7 := by
        funext i
        rfl
      rw [this]
      refine join_take_drop 7 _ _ ?_
      unfold source_frag_count
      split_ifs <;> omega
    · intro i h
      simp only [List.length_map, List.length_range] at h
      simp only [List.get_eq_getElem, List.getElem_map, List.getElem_range]
      refine ⟨rfl, by simp [split_frag_shape], ?_⟩
      show (split_frag_shape p 7 (source_frag_count 7 p.data.length - 1) i).frag_type = _
      unfold split_frag_shape
      simp only [List.length_map, List.length_range]
      split_ifs <;> first | rfl | omega

/-- Witness: the split applied to a concrete built explicit service packet
with a 15-byte message body (12 bytes of service data behind the 3 header
bytes) and to a concrete I/O packet with a 9-byte payload. -/
theorem C2_split_fragments_witness :
    (∃ l, explicit_service_split
        { group_id := 2, message_id := 4, src_mac := 0, dst_mac := 1,
          can_data := List.range 16, data := (List.range 16).drop 1 } = .fragments l ∧
      l.length = (((List.range 16).drop 1).length + 5) / 6 ∧
      SplitClaim 6 ((List.range 16).drop 1) l) ∧
    (∃ l, io_packet_split
        { group_id := 2, message_id := 5, src_mac := 0, dst_mac := 1,
          can_data := List.range 9, data := List.range 9 } = .fragments l ∧
      l.length = ((List.range 9).length + 6) / 7 ∧
      SplitClaim 7 (List.range 9) l) :=
  ⟨(C2_split_fragments _).1 (by decide) (by decide),
   (C2_split_fragments _).2 (by decide) (by decide)⟩

/-! ## Claim C7 — group-2 MAC placement -/

/-- Claim C7, as an if-and-only-if on MAC values, is false at the concrete
group-2 packet with `messageID = 1` and `srcMAC = dstMAC = 5`: the MAC
embedded in the CAN identifier is the destination MAC, whose value `5`
equals `srcMAC`, although `1 ∉ {BITSTROBE_CMD, EXPLICIT_RSP,
UNCONNECTED_RSP} = {0, 3}`. -/
theorem C7_group2_mac_counterexample :
    (build_can_header 2 1 5 5).2 = 5 ∧ ¬((1 : Nat) = 0 ∨ (1 : Nat) = 3) := by
  decide

/-- Claim C7 (amended): `build_can_header` embeds the source MAC for a
group-2 message exactly when `messageID ∈ {BITSTROBE_CMD = 0,
EXPLICIT_RSP = 3, UNCONNECTED_RSP = 3}` and the destination MAC otherwise
(so the value-level iff of the claim holds whenever `srcMAC ≠ dstMAC`);
for groups 1 and 3 the embedded MAC is always the source MAC. -/
theorem C7_group2_mac_selection :
    (∀ msgId srcMac dstMac : Nat,
      (build_can_header 2 msgId srcMac dstMac).2 =
        if msgId = 0 ∨ msgId = 3 then srcMac else dstMac) ∧
    (∀ msgId srcMac dstMac : Nat,
      (build_can_header 1 msgId srcMac dstMac).2 = srcMac ∧
      (build_can_header 3 msgId srcMac dstMac).2 = srcMac) ∧
    (∀ msgId srcMac dstMac : Nat, srcMac ≠ dstMac →
      ((build_can_header 2 msgId srcMac dstMac).2 = srcMac ↔
        (msgId = 0 ∨ msgId = 3))) := by
  have h2 : ∀ msgId srcMac dstMac : Nat,
      (build_can_header 2 msgId srcMac dstMac).2 =
        if msgId = 0 ∨ msgId = 3 then srcMac else dstMac := by
    intro msgId s d
    simp [build_can_header]
  refine ⟨h2, ?_, ?_⟩
  · intro msgId s d
    constructor <;> simp [build_can_header]
  · intro msgId s d hne
    rw [h2]
    split_ifs with hm
    · simp [hm]
    · simp only [hm, iff_false]
      exact fun h => hne h.symm

/-- Witness: the selection rule and the iff applied at concrete group-2
packets with distinct MACs. -/
theorem C7_group2_mac_selection_witness :
    ((build_can_header 2 1 5 6).2 = 5 ↔ ((1 : Nat) = 0 ∨ (1 : Nat) = 3)) ∧
    (build_can_header 2 0 5 6).2 = (if (0 : Nat) = 0 ∨ (0 : Nat) = 3 then 5 else 6) :=
  ⟨C7_group2_mac_selection.2.2 1 5 6 (by decide), C7_group2_mac_selection.1 0 5 6⟩

/-! ## Claim C3 — reassembly branches -/

/-- Claim C3: one reassembly iteration on a fragment with counter
difference `Δ = fragCount - prevCount`.  If `Δ = 0` (duplicate), the
explicit transfer re-acknowledges that fragCount and discards the payload
while the I/O transfer appends the payload and sends no ACK; if `Δ = 1`,
the payload is appended, an explicit transfer acknowledges the fragCount,
and `prevCount` advances to `fragCount`. -/
theorem C3_reassembly_step (frag_count : Nat) (fdata : List Nat) (prev : Nat)
    (stream acks : List Nat) :
    ((frag_count : Int) - (prev : Int) = 0 →
      read_fragment_step true frag_count fdata prev stream acks =
        (prev, stream, acks ++ [frag_count]) ∧
      read_fragment_step false frag_count fdata prev stream acks =
        (prev, stream ++ fdata, acks)) ∧
    (∀ explicit : Bool, (frag_count : Int) - (prev : Int) = 1 →
      read_fragment_step explicit frag_count fdata prev stream acks =
        (frag_count, stream ++ fdata,
          if explicit then acks ++ [frag_count] else acks)) := by
  constructor
  · intro hd
    unfold read_fragment_step
    constructor <;> rw [if_pos hd] <;> rfl
  · intro explicit hd
    unfold read_fragment_step
    rw [if_neg (by omega), if_pos hd]

/-- Witness: the duplicate and advance branches applied at the concrete
fragment with count 1 against previous counters 1 and 0. -/
theorem C3_reassembly_step_witness :
    (read_fragment_step true 1 [9] 1 [5] [] = (1, [5], [1]) ∧
     read_fragment_step false 1 [9] 1 [5] [] = (1, [5, 9], [])) ∧
    read_fragment_step true 1 [9] 0 [5] [] = (1, [5, 9], [1]) :=
  ⟨(C3_reassembly_step 1 [9] 1 [5] []).1 (by decide),
   (C3_reassembly_step 1 [9] 0 [5] []).2 true (by decide)⟩

/-! ## Claim C5 — single-fragment shortcut -/

/-- Claim C5, as stated, is false at a concrete shortcut frame: the
received START fragment with fragCount 0x3F (CAN-ID 0x40B, payload
`[0x80, 0x3F, 0x8E, 1, 2]`) is consumed as a complete message and its
service data `[1, 2]` returned, but the emitted acknowledge list is empty
— no ACK is sent, while the claim requires a single ACK for that
fragment count. -/
theorem C5_single_fragment_counterexample :
    wait_response 0x0E
      [some { can_id := 0x40B, data := [0x80, 0x3F, 0x8E, 1, 2] }] [] =
      .ok [1, 2] [] ∧
    WaitOut.ok [1, 2] ([] : List Nat) ≠ .ok [1, 2] [FRAGMENT_MAX_COUNT] := by
  constructor
  · rfl
  · decide

/-- Claim C5 (amended): a received fragmented explicit response whose
frame has fragFlag = 1, fragType = START and fragCount = 0x3F is treated
as a complete message — its serviceData is returned to the caller and
reassembly terminates — and no acknowledge is sent for it (the emitted
ACK list is unchanged). -/
theorem C5_single_fragment_shortcut (sc : Nat) (f : Frame)
    (rest : List (Option Frame)) (acks : List Nat) (r : ServicePacket)
    (hp : parse_explicit_service f = some r)
    (hsc : r.service_code = sc)
    (hff : r.frag_flag = FRAGMENT_ENABLED)
    (hft : r.frag_type = FRAGMENT_TYPE_START)
    (hfc : r.frag_count = FRAGMENT_MAX_COUNT) :
    wait_response sc (some f :: rest) acks = .ok r.service_data acks := by
  rw [wait_response, hp]
  dsimp only
  rw [if_pos hsc, if_neg (by simp [hff]), if_pos ⟨hft, hfc⟩]

/-- Witness: the shortcut applied at a concrete frame carrying service
data `[7]`. -/
theorem C5_single_fragment_shortcut_witness :
    wait_response 0x0E
      [some { can_id := 0x40B, data := [0x80, 0x3F, 0x8E, 7] }] [] =
      .ok [7] [] :=
  C5_single_fragment_shortcut 0x0E _ [] []
    { group_id := 2, message_id := 3, mac_in_can_id := 1, frag_flag := 1,
      xid := 0, mac_in_message := 0, frag_type := 0, frag_count := 0x3F,
      rr_flag := 1, service_code := 0x0E, service_data := [7] }
    (by decide) rfl rfl rfl rfl

/-! ## Claim C4 — error handling in the response state machine -/

theorem parse_service_code_le (f : Frame) (r : ServicePacket)
    (hp : parse_explicit_service f = some r) : r.service_code ≤ 0x7F := by
  obtain ⟨cid, d⟩ := f
  rcases d with _ | ⟨b0, _ | ⟨b1, rest⟩⟩
  · unfold parse_explicit_service at hp
    dsimp only at hp
    split_ifs at hp
  · unfold parse_explicit_service at hp
    dsimp only at hp
    split_ifs at hp
  · rcases rest with _ | ⟨b2, rest2⟩
    · unfold parse_explicit_service at hp
      dsimp only at hp
      split_ifs at hp <;> simp only [Option.some_inj] at hp <;>
        (rw [← hp]; exact Nat.and_le_right)
    · unfold parse_explicit_service at hp
      dsimp only at hp
      split_ifs at hp <;> simp only [Option.some_inj] at hp <;>
        (rw [← hp]; exact Nat.and_le_right)

/-- Claim C4, as stated, is false at the concrete exchange in which the
requested serviceCode is itself ERROR (0x14): the error response (CAN-ID
0x40B, payload `[0x00, 0x94, 0x09]`, service header `0x94` = response flag
plus code 0x14, error byte 9) satisfies the `service_code == service_code`
match first, so `wait_response` returns its service data `[9]` normally
instead of failing with `ServiceError`. -/
theorem C4_error_response_counterexample :
    wait_response 0x14
      [some { can_id := 0x40B, data := [0x00, 0x94, 0x09] }] [] =
      .ok [0x09] [] := by
  rfl

/-- Claim C4 (amended): in `wait_response`, provided the requested
serviceCode is not itself ERROR (0x14), a parsed response whose
serviceCode is ERROR fails with `ServiceError` carrying the first byte of
the response service data; and when the requested serviceCode exceeds
0x7F (a parsed response code never does, see `parse_service_code_le`) and
the response is not an error response, the operation fails with
`ServiceError(INVALID_REPLY_RECEIVED = 0x22)`. -/
theorem C4_wait_response_errors (sc : Nat) (f : Frame)
    (rest : List (Option Frame)) (acks : List Nat) (r : ServicePacket)
    (hp : parse_explicit_service f = some r) :
    (sc ≠ SERVICE_ERROR → r.service_code = SERVICE_ERROR →
      ∀ e tl, r.service_data = e :: tl →
        wait_response sc (some f :: rest) acks = .serviceError e acks) ∧
    (SERVICE_LAST_VALID_CODE < sc → r.service_code ≠ SERVICE_ERROR →
      wait_response sc (some f :: rest) acks =
        .serviceError ERROR_INVALID_REPLY_RECEIVED acks) := by
  constructor
  · intro hsc hcode e tl hdata
    rw [wait_response, hp]
    dsimp only
    rw [if_neg (by rw [hcode]; exact fun h => hsc h.symm),
      if_neg (by simp [hcode]), if_pos hcode, hdata]
  · intro hsc hcode
    have hle := parse_service_code_le f r hp
    rw [wait_response, hp]
    dsimp only
    rw [if_neg (by unfold SERVICE_LAST_VALID_CODE at hsc; omega),
      if_pos ⟨hsc, hcode⟩]

/-- Witness: the two error paths applied at concrete frames — an error
response to a request with code 0x05, and a non-error response to a
request with code 0x8E. -/
theorem C4_wait_response_errors_witness :
    wait_response 0x05
      [some { can_id := 0x40B, data := [0x00, 0x94, 0x09] }] [] =
      .serviceError 0x09 [] ∧
    wait_response 0x8E
      [some { can_id := 0x40B, data := [0x00, 0x8E, 0x34] }] [] =
      .serviceError ERROR_INVALID_REPLY_RECEIVED [] :=
  ⟨(C4_wait_response_errors 0x05 _ [] []
      { group_id := 2, message_id := 3, mac_in_can_id := 1, frag_flag := 0,
        xid := 0, mac_in_message := 0, frag_type := 0, frag_count := 0,
        rr_flag := 1, service_code := 0x14, service_data := [0x09] }
      (by decide)).1 (by decide) rfl 0x09 [] rfl,
   (C4_wait_response_errors 0x8E _ [] []
      { group_id := 2, message_id := 3, mac_in_can_id := 1, frag_flag := 0,
        xid := 0, mac_in_message := 0, frag_type := 0, frag_count := 0,
        rr_flag := 1, service_code := 0x0E, service_data := [0x34] }
      (by decide)).2 (by decide) (by decide)⟩

/-! ## Claim C6 — fragment-acknowledge wait -/

theorem parse_frag_ack_status_zero (f : Frame) (p : FragAckPacket)
    (hp : parse_frag_ack f = some p) : p.ack_status = 0 := by
  unfold parse_frag_ack at hp
  rcases hq : parse_explicit_frag f with _ | q
  · rw [hq] at hp
    exact absurd hp (by simp)
  · rw [hq] at hp
    dsimp only at hp
    split_ifs at hp
    rw [Option.some_inj] at hp
    rw [← hp]

/-- Claim C6: the retry/no-response half holds — two empty receive
attempts fail with `NoResponseError` — but the ack-status half is dead
code: parsing never assigns the received status byte to `ack_status`
(`ExplicitFragAckPacket.from_frame` never reads byte 2 into it), so an
acknowledge frame whose wire status byte is 1 is accepted as success, and
`wait_fragment_ack` can never produce `FragmentResponseError` on any
input. -/
theorem C6_wait_fragment_ack :
    wait_fragment_ack none none = .noResponse ∧
    wait_fragment_ack
      (some { can_id := 0x40B, data := [0x00, 0xC1, 0x01] }) none = .ok ∧
    (∀ r1 r2 : Option Frame, wait_fragment_ack r1 r2 ≠ .fragmentResponseError) := by
  refine ⟨rfl, rfl, ?_⟩
  have hcheck : ∀ f : Frame, wait_fragment_ack_check f ≠ .fragmentResponseError := by
    intro f
    unfold wait_fragment_ack_check
    rcases hq : parse_frag_ack f with _ | p
    · simp
    · have h0 := parse_frag_ack_status_zero f p hq
      simp [h0]
  intro r1 r2
  rcases r1 with _ | f1
  · rcases r2 with _ | f2
    · simp [wait_fragment_ack]
    · simpa [wait_fragment_ack] using hcheck f2
  · simpa [wait_fragment_ack] using hcheck f1
